import Mathlib

/-
  Verification of the order-intake Lambda handlers of reto-cloud-backend.

  The JavaScript source (src/index.js, and the near-identical copy under
  src/.aws-sam/build/HealthFunction/index.js) is shallowly embedded below.
  JavaScript values that can appear as the result of JSON.parse are
  modelled by the type JsVal; the special value undefined is modelled by
  Option JsVal (none = undefined), since JSON.parse never yields undefined
  but property access on a non-object does.  JavaScript numbers are
  modelled by Rat, with NaN represented as the none case of Option Rat
  (NaN can arise only from the Number coercion in this code, never from a
  JSON literal).  Database and JSON.parse collaborators are fields of an
  Env record; the observable collaborator calls issued by a handler are
  recorded in a Trace.
-/

namespace Reto

mutual
/-- A JavaScript value as produced by JSON.parse: null, booleans, numbers,
strings, arrays and objects. -/
inductive JsVal where
  | vNull
  | vBool (b : Bool)
  | vNum (q : Rat)
  | vStr (s : String)
  | vArr (elems : JsArr)
  | vObj (fields : JsFields)
  deriving DecidableEq
/-- A JavaScript array of values. -/
inductive JsArr where
  | nil
  | cons (v : JsVal) (rest : JsArr)
  deriving DecidableEq
/-- The fields of a JavaScript object, in insertion order. -/
inductive JsFields where
  | nil
  | cons (k : String) (v : JsVal) (rest : JsFields)
  deriving DecidableEq
end

open JsVal

/-- Convert an embedded JavaScript array to a Lean list. -/
def JsArr.toList : JsArr → List JsVal
  | .nil => []
  | .cons v r => v :: r.toList

/-- Build an embedded JavaScript array from a Lean list. -/
def JsArr.ofList : List JsVal → JsArr
  | [] => .nil
  | v :: r => .cons v (JsArr.ofList r)

/-- Build object fields from a Lean association list. -/
def JsFields.ofList : List (String × JsVal) → JsFields
  | [] => .nil
  | (k, v) :: r => .cons k v (JsFields.ofList r)

/-- Look a key up in object fields.  A later binding shadows an earlier
one, as in a JavaScript object where a duplicated key keeps its last
value. -/
def JsFields.find : JsFields → String → Option JsVal
  | .nil, _ => none
  | .cons k v rest, key =>
    match rest.find key with
    | some r => some r
    | none => if k = key then some v else none

/-- Property access `v[key]` on a JavaScript value, returning
undefined (`none`) when the value is a primitive or the field is absent.
Access on null throws a TypeError; that case is handled separately in
`getField`. -/
def objGet : JsVal → String → Option JsVal
  | .vObj fs, key => fs.find key
  | _, _ => none

/-- Property access as executed by the handlers: reading a property of
null throws (the `Except.error` case); reading a property of any other
value yields the field value or undefined. -/
def getField (v : JsVal) (key : String) : Except Unit (Option JsVal) :=
  if v = vNull then .error () else .ok (objGet v key)

/-- JavaScript truthiness of a value. -/
def truthy : JsVal → Bool
  | .vNull => false
  | .vBool b => b
  | .vNum q => if q = 0 then false else true
  | .vStr s => if s = "" then false else true
  | .vArr _ => true
  | .vObj _ => true

/-- JavaScript truthiness of a possibly-undefined value. -/
def truthyOpt : Option JsVal → Bool
  | none => false
  | some v => truthy v

/-- A JavaScript number: `some q` is the rational value, `none` is NaN. -/
abbrev JsNum := Option Rat

/-- JavaScript addition; NaN is absorbing. -/
def jsAdd : JsNum → JsNum → JsNum
  | some a, some b => some (a + b)
  | _, _ => none

/-- JavaScript multiplication; NaN is absorbing. -/
def jsMul : JsNum → JsNum → JsNum
  | some a, some b => some (a * b)
  | _, _ => none

/-- Numeric value of a digit string read left to right. -/
def digitsNat : List Char → Nat → Option Nat
  | [], acc => some acc
  | c :: r, acc => if c.isDigit then digitsNat r (acc * 10 + (c.toNat - 48)) else none

/-- Model of the Number coercion on strings: the empty or all-blank
string is 0, an optionally signed decimal literal is its value, anything
else is NaN (`none`).  Exotic accepted forms such as hexadecimal or
exponent literals are collapsed to NaN; no string in this development
uses them. -/
def strToNum (s : String) : Option Rat :=
  let t := s.trim
  if t = "" then some 0
  else
    let (neg, u) :=
      if t.startsWith "-" then (true, (t.drop 1).toList)
      else if t.startsWith "+" then (false, (t.drop 1).toList)
      else (false, t.toList)
    let core : List Char → Option Rat := fun cs =>
      match cs.splitOn '.' with
      | [a] => if a = [] then none else (digitsNat a 0).map (fun n => (n : Rat))
      | [a, b] =>
        if a = [] && b = [] then none
        else
          match digitsNat a 0, digitsNat b 0 with
          | some n, some f => some ((n : Rat) + (f : Rat) / ((10 : Rat) ^ b.length))
          | _, _ => none
      | _ => none
    match core u with
    | some q => some (if neg then -q else q)
    | none => none

/-- Model of the JavaScript Number coercion used at `Number(item.quantity)`
and `Number(p.price)`.  Primitives follow JavaScript exactly; arrays defer
to their single element (an empty array is 0); objects are NaN. -/
def toNumber : JsVal → JsNum
  | .vNull => some 0
  | .vBool b => some (if b then 1 else 0)
  | .vNum q => some q
  | .vStr s => strToNum s
  | .vArr .nil => some 0
  | .vArr (.cons v .nil) => toNumber v
  | .vArr (.cons _ (.cons _ _)) => none
  | .vObj _ => none

/-- The inbound Lambda event; only the request body is consulted by the
handlers.  `none` models an absent (undefined or null) body. -/
structure Event where
  body : Option String
  deriving DecidableEq

/-- The HTTP-style response envelope built by `response(statusCode, body)`
in the source.  The body is kept structured; the source serializes it
with JSON.stringify. -/
structure HttpResponse where
  statusCode : Nat
  headers : List (String × String)
  body : JsVal
  deriving DecidableEq

/-- The permissive CORS headers attached to every response. -/
def corsHeaders : List (String × String) :=
  [("Content-Type", "application/json"),
   ("Access-Control-Allow-Origin", "*"),
   ("Access-Control-Allow-Headers", "Content-Type"),
   ("Access-Control-Allow-Methods", "GET,POST,OPTIONS")]

/-- `response(statusCode, body)` from the source. -/
def response (statusCode : Nat) (body : JsVal) : HttpResponse :=
  { statusCode := statusCode, headers := corsHeaders, body := body }

/-- A one-field error body such as `\x7b error: "EMPTY_BODY" \x7d`. -/
def errBody (code : String) : JsVal :=
  vObj (.cons "error" (vStr code) .nil)

/-- The PRODUCT_NOT_FOUND body; JSON.stringify omits the productId key
when the offending productId is undefined. -/
def pnfBody : Option JsVal → JsVal
  | none => vObj (.cons "error" (vStr "PRODUCT_NOT_FOUND") .nil)
  | some pid =>
    vObj (.cons "error" (vStr "PRODUCT_NOT_FOUND") (.cons "productId" pid .nil))

/-- Render a JavaScript number into a JSON value as JSON.stringify does:
NaN serializes as null. -/
def numToJson : JsNum → JsVal
  | some q => vNum q
  | none => vNull

/-- The success body of createOrder. -/
def okBody (total : JsNum) : JsVal :=
  vObj (.cons "status" (vStr "ok") (.cons "total" (numToJson total) .nil))

/-- A catalog row as returned by `SELECT id, price FROM products WHERE id
IN (?)`: the id value and the price value as delivered by the driver. -/
abbrev CatalogRow := JsVal × JsVal

/-- The external collaborators of the handlers: the JSON.parse library
function, pool acquisition (secret fetch plus pool creation), the two
`pool.query` statements of createOrder, and the product listing query of
getProducts.  An `Except.error` models a thrown infrastructure error. -/
structure Env where
  parseJson : String → Option JsVal
  getPool : Except Unit Unit
  selectPrices : List (Option JsVal) → Except Unit (List CatalogRow)
  insertOrder : JsNum → Except Unit Nat
  selectProducts : Except Unit (List JsVal)

/-- The collaborator calls observably issued during one invocation:
each catalog lookup with the id list it was sent, and each order-store
write with the totalAmount it was sent. -/
structure Trace where
  catalogCalls : List (List (Option JsVal))
  insertCalls : List JsNum
  deriving DecidableEq

/-- The empty trace. -/
def Trace.empty : Trace := { catalogCalls := [], insertCalls := [] }

/-- Truthiness of `event.body`: absent or empty means falsy. -/
def bodyTruthy : Option String → Bool
  | none => false
  | some s => if s = "" then false else true

/-- `items.map(i => i.productId)`: reads the productId of every item left
to right; accessing a property of a null item throws. -/
def mapIds : List JsVal → Except Unit (List (Option JsVal))
  | [] => .ok []
  | it :: rest =>
    match getField it "productId" with
    | .error _ => .error ()
    | .ok pid =>
      match mapIds rest with
      | .error _ => .error ()
      | .ok r => .ok (pid :: r)

/-- The price map `new Map(products.map(p => [p.id, Number(p.price)]))`:
an association list from id to coerced price. -/
def pmOf (rows : List CatalogRow) : List (JsVal × JsNum) :=
  rows.map (fun r => (r.1, toNumber r.2))

/-- `Map.get` on the price map: a later entry for the same id shadows an
earlier one, as in a JavaScript Map built from duplicated keys. -/
def lookupLast : List (JsVal × JsNum) → JsVal → Option JsNum
  | [], _ => none
  | (k, v) :: rest, key =>
    match lookupLast rest key with
    | some r => some r
    | none => if k = key then some v else none

/-- `priceMap.get(item.productId)`: undefined never matches a key. -/
def mapGet (pm : List (JsVal × JsNum)) : Option JsVal → Option JsNum
  | none => none
  | some k => lookupLast pm k

/-- `item.quantity ? Number(item.quantity) : 1` for a non-null item. -/
def resolvedQty (it : JsVal) : JsNum :=
  let qf := objGet it "quantity"
  if truthyOpt qf then toNumber (qf.getD vNull) else some 1

/-- Outcome of the pricing loop of createOrder. -/
inductive LoopRes where
  | thrown
  | notFound (pid : Option JsVal)
  | done (total : JsNum)
  deriving DecidableEq

/-- The `for (const item of items)` loop of createOrder: resolve the
quantity, look the price up, fail on the first id with no price, else
accumulate `total += price * qty`.  A null item would throw on property
access (unreachable after `mapIds` succeeded, but modelled). -/
def computeTotal (pm : List (JsVal × JsNum)) : List JsVal → JsNum → LoopRes
  | [], acc => .done acc
  | it :: rest, acc =>
    if it = vNull then .thrown
    else
      let qty := resolvedQty it
      match mapGet pm (objGet it "productId") with
      | none => .notFound (objGet it "productId")
      | some price => computeTotal pm rest (jsAdd acc (jsMul price qty))

/-- `exports.createOrder` from src/index.js, lines 92 to 153, as a pure
function of the collaborators and the event.  Returns the response
envelope together with the trace of collaborator calls issued. -/
def createOrder (env : Env) (event : Event) : HttpResponse × Trace :=
  if bodyTruthy event.body = false then
    (response 400 (errBody "EMPTY_BODY"), Trace.empty)
  else
    match env.parseJson (event.body.getD "") with
    | none => (response 400 (errBody "INVALID_JSON"), Trace.empty)
    | some payload =>
      match getField payload "items" with
      | .error _ => (response 500 (errBody "DB_ERROR"), Trace.empty)
      | .ok itemsField =>
        match itemsField with
        | some (vArr itemsArr) =>
          let items := itemsArr.toList
          if items.isEmpty then
            (response 400 (errBody "EMPTY_CART"), Trace.empty)
          else
            match env.getPool with
            | .error _ => (response 500 (errBody "DB_ERROR"), Trace.empty)
            | .ok _ =>
              match mapIds items with
              | .error _ => (response 500 (errBody "DB_ERROR"), Trace.empty)
              | .ok ids =>
                match env.selectPrices ids with
                | .error _ =>
                  (response 500 (errBody "DB_ERROR"),
                   { catalogCalls := [ids], insertCalls := [] })
                | .ok rows =>
                  match computeTotal (pmOf rows) items (some 0) with
                  | .thrown =>
                    (response 500 (errBody "DB_ERROR"),
                     { catalogCalls := [ids], insertCalls := [] })
                  | .notFound pid =>
                    (response 400 (pnfBody pid),
                     { catalogCalls := [ids], insertCalls := [] })
                  | .done total =>
                    match env.insertOrder total with
                    | .error _ =>
                      (response 500 (errBody "DB_ERROR"),
                       { catalogCalls := [ids], insertCalls := [total] })
                    | .ok _ =>
                      (response 201 (okBody total),
                       { catalogCalls := [ids], insertCalls := [total] })
        | _ => (response 400 (errBody "EMPTY_CART"), Trace.empty)

/-- `exports.getProducts` from src/index.js, lines 79 to 90. -/
def getProducts (env : Env) : HttpResponse :=
  match env.getPool with
  | .error _ => response 500 (errBody "DB_ERROR")
  | .ok _ =>
    match env.selectProducts with
    | .error _ => response 500 (errBody "DB_ERROR")
    | .ok rows => response 200 (vArr (JsArr.ofList rows))

/-- `exports.createOrder` from the duplicated copy at
src/.aws-sam/build/HealthFunction/index.js, lines 51 to 112, translated
independently.  The two copies differ only in how the pool is configured,
which the Env collaborator abstracts in both. -/
def createOrderBuild (env : Env) (event : Event) : HttpResponse × Trace :=
  if bodyTruthy event.body = false then
    (response 400 (errBody "EMPTY_BODY"), Trace.empty)
  else
    match env.parseJson (event.body.getD "") with
    | none => (response 400 (errBody "INVALID_JSON"), Trace.empty)
    | some payload =>
      match getField payload "items" with
      | .error _ => (response 500 (errBody "DB_ERROR"), Trace.empty)
      | .ok itemsField =>
        match itemsField with
        | some (vArr itemsArr) =>
          let items := itemsArr.toList
          if items.isEmpty then
            (response 400 (errBody "EMPTY_CART"), Trace.empty)
          else
            match env.getPool with
            | .error _ => (response 500 (errBody "DB_ERROR"), Trace.empty)
            | .ok _ =>
              match mapIds items with
              | .error _ => (response 500 (errBody "DB_ERROR"), Trace.empty)
              | .ok ids =>
                match env.selectPrices ids with
                | .error _ =>
                  (response 500 (errBody "DB_ERROR"),
                   { catalogCalls := [ids], insertCalls := [] })
                | .ok rows =>
                  match computeTotal (pmOf rows) items (some 0) with
                  | .thrown =>
                    (response 500 (errBody "DB_ERROR"),
                     { catalogCalls := [ids], insertCalls := [] })
                  | .notFound pid =>
                    (response 400 (pnfBody pid),
                     { catalogCalls := [ids], insertCalls := [] })
                  | .done total =>
                    match env.insertOrder total with
                    | .error _ =>
                      (response 500 (errBody "DB_ERROR"),
                       { catalogCalls := [ids], insertCalls := [total] })
                    | .ok _ =>
                      (response 201 (okBody total),
                       { catalogCalls := [ids], insertCalls := [total] })
        | _ => (response 400 (errBody "EMPTY_CART"), Trace.empty)

/-- The resolved database configuration built by getDbConfig. -/
structure DbConfig where
  host : JsVal
  user : JsVal
  password : JsVal
  database : JsVal
  port : JsNum
  deriving DecidableEq

/-- `getDbConfig` from src/index.js, lines 27 to 41, as a function of the
already-parsed secret payload (secret retrieval itself is a collaborator
outside this core).  Field reads on a null payload throw; the guard
`if (!host or !user or !password) throw` makes a payload missing any of
host, username, password a failure.  Note the source reads only
`parsed.username` for the user, while `parsed.dbname` and
`parsed.database` are both accepted for the database name. -/
def getDbConfig (parsed : JsVal) : Except Unit DbConfig :=
  match getField parsed "host" with
  | .error _ => .error ()
  | .ok hostF =>
  match getField parsed "username" with
  | .error _ => .error ()
  | .ok userF =>
  match getField parsed "password" with
  | .error _ => .error ()
  | .ok passwordF =>
  match getField parsed "dbname" with
  | .error _ => .error ()
  | .ok dbnameF =>
  match getField parsed "database" with
  | .error _ => .error ()
  | .ok databaseF =>
  match getField parsed "port" with
  | .error _ => .error ()
  | .ok portF =>
    let database :=
      if truthyOpt dbnameF then dbnameF.getD vNull
      else if truthyOpt databaseF then databaseF.getD vNull
      else vStr "storedb"
    let port : JsNum :=
      if truthyOpt portF then toNumber (portF.getD vNull) else some 3306
    if truthyOpt hostF = false ∨ truthyOpt userF = false ∨
        truthyOpt passwordF = false then
      .error ()
    else
      .ok { host := hostF.getD vNull, user := userF.getD vNull,
            password := passwordF.getD vNull, database := database,
            port := port }

/-- The SQL semantics of `SELECT id, price FROM products WHERE id IN (?)`
against a concrete products table: keep the rows whose id occurs among
the requested ids (an undefined entry in the id list matches no row). -/
def sqlSelectPrices (table : List CatalogRow) (ids : List (Option JsVal)) :
    List CatalogRow :=
  table.filter (fun r => decide (some r.1 ∈ ids))

/-- The price the catalog table associates to a productId value, after
the Number coercion applied when the price map is built. -/
def priceOf (table : List CatalogRow) (pid : Option JsVal) : Option JsNum :=
  mapGet (pmOf table) pid

/-- The rational price of an item in a table (0 when missing or NaN). -/
def priceQ (table : List CatalogRow) (it : JsVal) : Rat :=
  ((priceOf table (objGet it "productId")).getD none).getD 0

/-- The rational resolved quantity of an item (0 when NaN). -/
def qtyQ (it : JsVal) : Rat := (resolvedQty it).getD 0

/-- The sum over all cart items, in input order and with every occurrence
counted independently, of price times resolved quantity. -/
def cartSum (table : List CatalogRow) (items : List JsVal) : Rat :=
  (items.map (fun it => priceQ table it * qtyQ it)).sum

/-- The per-item summand used while relating the loop to a price map. -/
def pmSum (pm : List (JsVal × JsNum)) (l : List JsVal) : Rat :=
  (l.map (fun it => ((mapGet pm (objGet it "productId")).getD none).getD 0 * qtyQ it)).sum

/-- Cart item with productId "A" and quantity 2. -/
def itemA : JsVal :=
  vObj (.cons "productId" (vStr "A") (.cons "quantity" (vNum 2) .nil))

/-- Cart item with productId "B" and quantity 1. -/
def itemB : JsVal :=
  vObj (.cons "productId" (vStr "B") (.cons "quantity" (vNum 1) .nil))

/-- Cart item with productId "A" and no quantity field. -/
def itemAonly : JsVal := vObj (.cons "productId" (vStr "A") .nil)

/-- Cart item with an unknown productId "X". -/
def itemX : JsVal := vObj (.cons "productId" (vStr "X") .nil)

/-- Cart item with productId "A" and the negative quantity -3. -/
def itemNegQty : JsVal :=
  vObj (.cons "productId" (vStr "A") (.cons "quantity" (vNum (-3)) .nil))

/-- A catalog with prices 5 for "A" and 3 for "B". -/
def tblW : List CatalogRow := [(vStr "A", vNum 5), (vStr "B", vNum 3)]

/-- A catalog with price 10 for "A". -/
def tblTen : List CatalogRow := [(vStr "A", vNum 10)]

/-- A request payload object holding the given items array. -/
def payloadOf (items : List JsVal) : JsVal :=
  vObj (.cons "items" (vArr (JsArr.ofList items)) .nil)

/-- A concrete stand-in for JSON.parse mapping a handful of fixed body
strings to their parsed payloads and everything else to a parse error. -/
def parseW : String → Option JsVal := fun s =>
  if s = "good" then some (payloadOf [itemA, itemB])
  else if s = "dup" then some (payloadOf [itemAonly, itemAonly])
  else if s = "null" then some vNull
  else if s = "miss" then some (payloadOf [itemX, vNull])
  else if s = "missfirst" then some (payloadOf [itemX, itemA])
  else if s = "one" then some (payloadOf [itemAonly])
  else if s = "neg" then some (payloadOf [itemNegQty])
  else if s = "empty" then some (payloadOf [])
  else none

/-- A healthy environment over the catalog `tblW`. -/
def envW : Env :=
  { parseJson := parseW
    getPool := .ok ()
    selectPrices := fun ids => .ok (sqlSelectPrices tblW ids)
    insertOrder := fun _ => .ok 7
    selectProducts := .ok [] }

/-- A healthy environment over the catalog `tblTen`. -/
def envTen : Env :=
  { envW with selectPrices := fun ids => .ok (sqlSelectPrices tblTen ids) }

/-- An environment whose pool acquisition fails. -/
def envPoolFail : Env := { envW with getPool := .error () }

/-- An environment whose order-store write fails. -/
def envInsFail : Env := { envW with insertOrder := fun _ => .error () }

/-- An environment whose product-listing query fails. -/
def envListFail : Env := { envW with selectProducts := .error () }

/-- An environment whose catalog price lookup fails. -/
def envCatFail : Env := { envW with selectPrices := fun _ => .error () }

/-- Cart item with productId "A" and quantity 0 (falsy). -/
def itemZeroQty : JsVal :=
  vObj (.cons "productId" (vStr "A") (.cons "quantity" (vNum 0) .nil))

/-- Cart item with productId "A" and quantity null (falsy). -/
def itemNullQty : JsVal :=
  vObj (.cons "productId" (vStr "A") (.cons "quantity" vNull .nil))

/-- A secret payload supplying host, username and password. -/
def fsW : JsFields :=
  .cons "host" (vStr "h") (.cons "username" (vStr "u")
    (.cons "password" (vStr "p") .nil))

/-- A secret payload supplying the user under the key "user" instead of
"username", together with host and password. -/
def fsUserKey : JsFields :=
  .cons "host" (vStr "h") (.cons "user" (vStr "u")
    (.cons "password" (vStr "p") .nil))

lemma mapIds_ok (items : List JsVal) (h : ∀ it ∈ items, it ≠ JsVal.vNull) :
    mapIds items = .ok (items.map (fun it => objGet it "productId")) := by
  induction items with
  | nil => rfl
  | cons it rest ih =>
    have hit : it ≠ JsVal.vNull := h it (List.mem_cons_self it rest)
    have hrest := ih (fun x hx => h x (List.mem_cons_of_mem it hx))
    simp only [mapIds, getField, if_neg hit, hrest, List.map_cons]

lemma lookupLast_filter (table : List CatalogRow) (ids : List (Option JsVal))
    (k : JsVal) (hk : some k ∈ ids) :
    lookupLast (pmOf (sqlSelectPrices table ids)) k = lookupLast (pmOf table) k := by
  induction table with
  | nil => rfl
  | cons r t ih =>
    unfold pmOf at ih ⊢
    by_cases hr : some r.1 ∈ ids
    · have hkeep : sqlSelectPrices (r :: t) ids = r :: sqlSelectPrices t ids := by
        simp [sqlSelectPrices, List.filter_cons, hr]
      rw [hkeep]
      simp only [List.map_cons, lookupLast]
      rw [ih]
    · have hdrop : sqlSelectPrices (r :: t) ids = sqlSelectPrices t ids := by
        simp [sqlSelectPrices, List.filter_cons, hr]
      have hne : r.1 ≠ k := fun he => hr (he ▸ hk)
      rw [hdrop, ih]
      simp only [List.map_cons, lookupLast]
      cases hcase : lookupLast (List.map (fun r => (r.1, toNumber r.2)) t) k with
      | some v => simp [hcase]
      | none => simp [hcase, if_neg hne]

lemma computeTotal_resolved (pm : List (JsVal × JsNum)) (l : List JsVal)
    (h : ∀ it ∈ l, it ≠ JsVal.vNull ∧
        (∃ p, mapGet pm (objGet it "productId") = some (some p)) ∧
        (resolvedQty it).isSome) :
    ∀ a : Rat, computeTotal pm l (some a) = .done (some (a + pmSum pm l)) := by
  induction l with
  | nil => intro a; simp [computeTotal, pmSum]
  | cons it rest ih =>
    intro a
    obtain ⟨hne, ⟨p, hp⟩, hq⟩ := h it (List.mem_cons_self it rest)
    obtain ⟨q, hq⟩ := Option.isSome_iff_exists.mp hq
    have hrest := ih (fun x hx => h x (List.mem_cons_of_mem it hx))
    simp only [computeTotal, if_neg hne, hp, hq, jsMul, jsAdd]
    rw [hrest (a + p * q)]
    simp only [pmSum, List.map_cons, List.sum_cons, hp, hq, qtyQ,
      Option.getD_some]
    rw [add_assoc]

lemma createOrder_cases (env : Env) (ev : Event) :
    createOrder env ev = (response 400 (errBody "EMPTY_BODY"), Trace.empty) ∨
    createOrder env ev = (response 400 (errBody "INVALID_JSON"), Trace.empty) ∨
    createOrder env ev = (response 500 (errBody "DB_ERROR"), Trace.empty) ∨
    createOrder env ev = (response 400 (errBody "EMPTY_CART"), Trace.empty) ∨
    (∃ ids, createOrder env ev =
      (response 500 (errBody "DB_ERROR"), { catalogCalls := [ids], insertCalls := [] })) ∨
    (∃ ids pid, createOrder env ev =
      (response 400 (pnfBody pid), { catalogCalls := [ids], insertCalls := [] })) ∨
    (∃ ids t, createOrder env ev =
      (response 500 (errBody "DB_ERROR"), { catalogCalls := [ids], insertCalls := [t] })) ∨
    (∃ ids t, createOrder env ev =
      (response 201 (okBody t), { catalogCalls := [ids], insertCalls := [t] })) := by
  unfold createOrder
  split
  · tauto
  split
  · tauto
  case _ payload _ =>
  rcases hf : getField payload "items" with _ | itemsField
  · simp only [hf]; tauto
  simp only [hf]
  match itemsField with
  | none => tauto
  | some (vNull) => tauto
  | some (vBool b) => tauto
  | some (vNum q) => tauto
  | some (vStr s) => tauto
  | some (vObj fs) => tauto
  | some (vArr itemsArr) =>
    simp only
    split
    · tauto
    rcases hpool : env.getPool with _ | _
    · simp only [hpool]; tauto
    simp only [hpool]
    rcases hmi : mapIds itemsArr.toList with _ | ids
    · simp only [hmi]; tauto
    simp only [hmi]
    rcases hsel : env.selectPrices ids with _ | rows
    · simp only [hsel]
      refine Or.inr (Or.inr (Or.inr (Or.inr (Or.inl ⟨ids, rfl⟩))))
    simp only [hsel]
    rcases hct : computeTotal (pmOf rows) itemsArr.toList (some 0) with _ | pid | total
    · simp only [hct]
      exact Or.inr (Or.inr (Or.inr (Or.inr (Or.inl ⟨ids, rfl⟩))))
    · simp only [hct]
      exact Or.inr (Or.inr (Or.inr (Or.inr (Or.inr (Or.inl ⟨ids, pid, rfl⟩)))))
    · simp only [hct]
      rcases hins : env.insertOrder total with _ | oid
      · simp only [hins]
        exact Or.inr (Or.inr (Or.inr (Or.inr (Or.inr (Or.inr (Or.inl ⟨ids, total, rfl⟩))))))
      · simp only [hins]
        exact Or.inr (Or.inr (Or.inr (Or.inr (Or.inr (Or.inr (Or.inr ⟨ids, total, rfl⟩))))))
lemma createOrder_success_run
    (env : Env) (ev : Event) (b : String) (payload : JsVal)
    (itemsArr : JsArr) (table : List CatalogRow)
    (hb : ev.body = some b) (hbne : b ≠ "")
    (hp : env.parseJson b = some payload)
    (hitems : getField payload "items" = .ok (some (vArr itemsArr)))
    (hne : itemsArr.toList ≠ [])
    (hpool : env.getPool = .ok ())
    (hcat : ∀ ids, env.selectPrices ids = .ok (sqlSelectPrices table ids))
    (hres : ∀ it ∈ itemsArr.toList, it ≠ vNull ∧
        (∃ p, priceOf table (objGet it "productId") = some (some p)) ∧
        (resolvedQty it).isSome)
    (hins : ∀ t, ∃ oid, env.insertOrder t = .ok oid) :
    (createOrder env ev).1 =
      response 201 (okBody (some (cartSum table itemsArr.toList))) ∧
    (createOrder env ev).2.insertCalls = [some (cartSum table itemsArr.toList)] := by
  have hnn : ∀ it ∈ itemsArr.toList, it ≠ vNull := fun it h => (hres it h).1
  have hmi := mapIds_ok itemsArr.toList hnn
  have hagree : ∀ it ∈ itemsArr.toList,
      mapGet (pmOf (sqlSelectPrices table
          (itemsArr.toList.map (fun x => objGet x "productId"))))
        (objGet it "productId") = priceOf table (objGet it "productId") := by
    intro it hit
    rcases hpid : objGet it "productId" with _ | k
    · rfl
    · have hkmem : some k ∈ itemsArr.toList.map (fun x => objGet x "productId") :=
        List.mem_map.mpr ⟨it, hit, by rw [hpid]⟩
      exact lookupLast_filter table _ k hkmem
  have hloop := computeTotal_resolved
      (pmOf (sqlSelectPrices table
        (itemsArr.toList.map (fun x => objGet x "productId")))) itemsArr.toList
      (fun it hit => ⟨(hres it hit).1,
        (by obtain ⟨p, hp2⟩ := (hres it hit).2.1
            exact ⟨p, by rw [hagree it hit]; exact hp2⟩),
        (hres it hit).2.2⟩) 0
  have hsum : pmSum (pmOf (sqlSelectPrices table
      (itemsArr.toList.map (fun x => objGet x "productId")))) itemsArr.toList =
      cartSum table itemsArr.toList := by
    unfold pmSum cartSum
    congr 1
    apply List.map_congr_left
    intro it hit
    rw [hagree it hit]
    rfl
  obtain ⟨oid, hoid⟩ := hins (some (cartSum table itemsArr.toList))
  have hempty : itemsArr.toList.isEmpty = false := by
    simp [List.isEmpty_iff, hne]
  unfold createOrder
  rw [hb]
  simp only [bodyTruthy, if_neg hbne, Option.getD_some, hp, hitems, hempty,
    Bool.false_eq_true, Bool.true_eq_false, if_false, hpool, hmi, hcat, hloop,
    zero_add, hsum, hoid]
  exact ⟨trivial, trivial⟩

/-- C1: for every non-empty cart in which every item resolves to a catalog
price (and the collaborators succeed), createOrder returns 201 with a
total equal to the sum, in input order and with every occurrence of a
productId counted independently, of price times resolved quantity; the
same total is written to the order store. -/
theorem createOrder_total_correct
    (env : Env) (ev : Event) (b : String) (payload : JsVal)
    (itemsArr : JsArr) (table : List CatalogRow)
    (hb : ev.body = some b) (hbne : b ≠ "")
    (hp : env.parseJson b = some payload)
    (hitems : getField payload "items" = .ok (some (vArr itemsArr)))
    (hne : itemsArr.toList ≠ [])
    (hpool : env.getPool = .ok ())
    (hcat : ∀ ids, env.selectPrices ids = .ok (sqlSelectPrices table ids))
    (hres : ∀ it ∈ itemsArr.toList, it ≠ vNull ∧
        (∃ p, priceOf table (objGet it "productId") = some (some p)) ∧
        (resolvedQty it).isSome)
    (hins : ∀ t, ∃ oid, env.insertOrder t = .ok oid) :
    (createOrder env ev).1 =
      response 201 (okBody (some (cartSum table itemsArr.toList))) ∧
    (createOrder env ev).2.insertCalls =
      [some (cartSum table itemsArr.toList)] :=
  createOrder_success_run env ev b payload itemsArr table hb hbne hp hitems
    hne hpool hcat hres hins

/-- C1 witness: the spec example (prices 5 and 3, quantities 2 and 1)
totals 13, and a cart naming "A" twice at the default quantity totals
additively to 10. -/
theorem createOrder_total_correct_witness :
    ((createOrder envW { body := some "good" }).1 =
      response 201 (okBody (some 13)) ∧
     (createOrder envW { body := some "good" }).2.insertCalls = [some 13]) ∧
    ((createOrder envW { body := some "dup" }).1 =
      response 201 (okBody (some 10)) ∧
     (createOrder envW { body := some "dup" }).2.insertCalls = [some 10]) := by
  have hres1 : ∀ it ∈ (JsArr.ofList [itemA, itemB]).toList, it ≠ vNull ∧
      (∃ p, priceOf tblW (objGet it "productId") = some (some p)) ∧
      (resolvedQty it).isSome := by
    intro it hit
    simp only [JsArr.ofList, JsArr.toList, List.mem_cons,
      List.not_mem_nil, or_false] at hit
    rcases hit with rfl | rfl
    · exact ⟨by decide, ⟨5, rfl⟩, by decide⟩
    · exact ⟨by decide, ⟨3, rfl⟩, by decide⟩
  have hres2 : ∀ it ∈ (JsArr.ofList [itemAonly, itemAonly]).toList, it ≠ vNull ∧
      (∃ p, priceOf tblW (objGet it "productId") = some (some p)) ∧
      (resolvedQty it).isSome := by
    intro it hit
    simp only [JsArr.ofList, JsArr.toList, List.mem_cons,
      List.not_mem_nil, or_false] at hit
    rcases hit with rfl | rfl <;> exact ⟨by decide, ⟨5, rfl⟩, by decide⟩
  have h1 := createOrder_total_correct envW { body := some "good" } "good"
      (payloadOf [itemA, itemB]) (JsArr.ofList [itemA, itemB]) tblW rfl
      (by decide) rfl rfl (by decide) rfl (fun ids => rfl) hres1
      (fun t => ⟨7, rfl⟩)
  have h2 := createOrder_total_correct envW { body := some "dup" } "dup"
      (payloadOf [itemAonly, itemAonly]) (JsArr.ofList [itemAonly, itemAonly])
      tblW rfl (by decide) rfl rfl (by decide) rfl (fun ids => rfl) hres2
      (fun t => ⟨7, rfl⟩)
  have e1 : cartSum tblW (JsArr.ofList [itemA, itemB]).toList = 13 := by
    show ((5:Rat) * 2 + ((3:Rat) * 1 + 0) : Rat) = 13
    norm_num
  have e2 : cartSum tblW (JsArr.ofList [itemAonly, itemAonly]).toList = 10 := by
    show ((5:Rat) * 1 + ((5:Rat) * 1 + 0) : Rat) = 10
    norm_num
  rw [e1] at h1
  rw [e2] at h2
  exact ⟨h1, h2⟩

/-- C5: the catalog lookup is invoked at most once per call and never on a
step 1 to 3 validation failure; a successful call issues exactly one
order-store write carrying the returned total; a 400 outcome issues no
write. -/
theorem createOrder_side_effects (env : Env) (ev : Event) :
    (createOrder env ev).2.catalogCalls.length ≤ 1 ∧
    ((createOrder env ev).1 = response 400 (errBody "EMPTY_BODY") ∨
     (createOrder env ev).1 = response 400 (errBody "INVALID_JSON") ∨
     (createOrder env ev).1 = response 400 (errBody "EMPTY_CART") →
      (createOrder env ev).2.catalogCalls = []) ∧
    ((createOrder env ev).1.statusCode = 201 →
      ∃ t, (createOrder env ev).2.insertCalls = [t] ∧
        (createOrder env ev).1.body = okBody t) ∧
    ((createOrder env ev).1.statusCode = 400 →
      (createOrder env ev).2.insertCalls = []) := by
  rcases createOrder_cases env ev with h | h | h | h |
      ⟨ids, h⟩ | ⟨ids, pid, h⟩ | ⟨ids, t, h⟩ | ⟨ids, t, h⟩ <;> rw [h]
  · exact ⟨by simp [Trace.empty], fun _ => rfl, by simp [response], fun _ => rfl⟩
  · exact ⟨by simp [Trace.empty], fun _ => rfl, by simp [response], fun _ => rfl⟩
  · exact ⟨by simp [Trace.empty], fun _ => rfl, by simp [response], fun _ => rfl⟩
  · exact ⟨by simp [Trace.empty], fun _ => rfl, by simp [response], fun _ => rfl⟩
  · refine ⟨by simp, fun hpre => ?_, by simp [response], fun _ => rfl⟩
    exfalso
    rcases hpre with he | he | he <;>
      simpa [response, errBody] using congrArg HttpResponse.body he
  · refine ⟨by simp, fun hpre => ?_, by simp [response], fun _ => rfl⟩
    exfalso
    rcases hpre with he | he | he <;>
      (have hbody := congrArg HttpResponse.body he; revert hbody;
       cases pid <;> simp [response, errBody, pnfBody])
  · refine ⟨by simp, fun hpre => ?_, by simp [response], by simp [response]⟩
    exfalso
    rcases hpre with he | he | he <;>
      simpa [response] using congrArg HttpResponse.statusCode he
  · refine ⟨by simp, fun hpre => ?_, fun _ => ⟨t, rfl, rfl⟩, by simp [response]⟩
    exfalso
    rcases hpre with he | he | he <;>
      simpa [response] using congrArg HttpResponse.statusCode he

/-- C5 witness: on the empty-body request no catalog call and no write is
issued; on the successful request exactly one write with the total 13. -/
theorem createOrder_side_effects_witness :
    (createOrder envW { body := none }).2.catalogCalls = [] ∧
    (createOrder envW { body := none }).2.insertCalls = [] ∧
    ∃ t, (createOrder envW { body := some "good" }).2.insertCalls = [t] ∧
      (createOrder envW { body := some "good" }).1.body = okBody t :=
  ⟨(createOrder_side_effects envW { body := none }).2.1 (Or.inl (by decide)),
   (createOrder_side_effects envW { body := none }).2.2.2 (by decide),
   (createOrder_side_effects envW { body := some "good" }).2.2.1 (by decide)⟩


/-- C2 (amended): validation runs in order and short-circuits: absent or
empty body gives EMPTY_BODY; a non-empty body that does not parse gives
INVALID_JSON; a parsed payload other than JSON null whose items field is
not a non-empty array gives EMPTY_CART; a payload of JSON null instead
makes the items access throw, which surfaces as 500 DB_ERROR. -/
theorem createOrder_validation_order (env : Env) (ev : Event) :
    ((ev.body = none ∨ ev.body = some "") →
      (createOrder env ev).1 = response 400 (errBody "EMPTY_BODY")) ∧
    (∀ b, ev.body = some b → b ≠ "" → env.parseJson b = none →
      (createOrder env ev).1 = response 400 (errBody "INVALID_JSON")) ∧
    (∀ b payload, ev.body = some b → b ≠ "" → env.parseJson b = some payload →
      payload ≠ vNull →
      (∀ arr, objGet payload "items" = some (vArr arr) → arr = .nil) →
      (createOrder env ev).1 = response 400 (errBody "EMPTY_CART")) ∧
    (∀ b, ev.body = some b → b ≠ "" → env.parseJson b = some vNull →
      (createOrder env ev).1 = response 500 (errBody "DB_ERROR")) := by
  refine ⟨fun h => ?_, fun b hb hbne hparse => ?_,
    fun b payload hb hbne hparse hpn hitems => ?_, fun b hb hbne hparse => ?_⟩
  · unfold createOrder
    rcases h with h | h <;> rw [h] <;> rfl
  · unfold createOrder
    rw [hb]
    simp only [bodyTruthy, if_neg hbne, Option.getD_some, hparse,
      Bool.true_eq_false, if_false]
  · unfold createOrder
    rw [hb]
    simp only [bodyTruthy, if_neg hbne, Option.getD_some, hparse,
      Bool.true_eq_false, if_false, getField, if_neg hpn]
    rcases hob : objGet payload "items" with _ | v
    · rfl
    · match v with
      | vNull => rfl
      | vBool _ => rfl
      | vNum _ => rfl
      | vStr _ => rfl
      | vObj _ => rfl
      | vArr arr =>
        have harr := hitems arr hob
        subst harr
        rfl
  · unfold createOrder
    rw [hb]
    simp only [bodyTruthy, if_neg hbne, Option.getD_some, hparse,
      Bool.true_eq_false, if_false, getField, if_pos rfl, if_true]

/-- C2 counterexample: the body "null" parses as JSON (to null), its
items field is not a non-empty array, yet the handler returns 500
DB_ERROR, not 400 EMPTY_CART as the claim states. -/
theorem createOrder_validation_counterexample :
    envW.parseJson "null" = some vNull ∧
    (createOrder envW { body := some "null" }).1 = response 500 (errBody "DB_ERROR") ∧
    (createOrder envW { body := some "null" }).1 ≠ response 400 (errBody "EMPTY_CART") := by
  refine ⟨by decide, by decide, by decide⟩

/-- C2 witness: the three validation outcomes and the null-payload
outcome on concrete requests. -/
theorem createOrder_validation_order_witness :
    (createOrder envW { body := some "" }).1 = response 400 (errBody "EMPTY_BODY") ∧
    (createOrder envW { body := some "zzz" }).1 = response 400 (errBody "INVALID_JSON") ∧
    (createOrder envW { body := some "empty" }).1 = response 400 (errBody "EMPTY_CART") ∧
    (createOrder envW { body := some "null" }).1 = response 500 (errBody "DB_ERROR") := by
  refine ⟨(createOrder_validation_order envW _).1 (Or.inr rfl),
    (createOrder_validation_order envW _).2.1 "zzz" rfl (by decide) (by decide),
    (createOrder_validation_order envW _).2.2.1 "empty" (payloadOf []) rfl
      (by decide) rfl (by decide) ?_,
    (createOrder_validation_order envW _).2.2.2 "null" rfl (by decide) rfl⟩
  intro arr harr
  have : arr = JsArr.nil := by
    have h2 : objGet (payloadOf []) "items" = some (vArr JsArr.nil) := rfl
    rw [h2] at harr
    exact (JsVal.vArr.injEq _ _ ▸ (Option.some.injEq _ _ ▸ harr)).symm ▸ rfl
  exact this


lemma computeTotal_reaches (pm : List (JsVal × JsNum)) (pre : List JsVal)
    (h : ∀ it ∈ pre, it ≠ vNull ∧ mapGet pm (objGet it "productId") ≠ none) :
    ∀ rest acc, ∃ acc2,
      computeTotal pm (pre ++ rest) acc = computeTotal pm rest acc2 := by
  induction pre with
  | nil => exact fun rest acc => ⟨acc, rfl⟩
  | cons it p ih =>
    intro rest acc
    obtain ⟨hne, hmg⟩ := h it (List.mem_cons_self it p)
    obtain ⟨price, hprice⟩ := Option.ne_none_iff_exists'.mp hmg
    obtain ⟨acc2, hacc⟩ := ih (fun x hx => h x (List.mem_cons_of_mem it hx))
      rest (jsAdd acc (jsMul price (resolvedQty it)))
    refine ⟨acc2, ?_⟩
    simp only [List.cons_append, computeTotal, if_neg hne, hprice]
    exact hacc

/-- C3 (amended): for a cart free of null items whose prefix resolves
and whose next item does not, createOrder returns 400 PRODUCT_NOT_FOUND
carrying that first missing productId, issues no order-store write, and
the items after it do not influence the result (the outcome mentions only
the first missing item). -/
theorem createOrder_first_missing
    (env : Env) (ev : Event) (b : String) (payload : JsVal) (itemsArr : JsArr)
    (table : List CatalogRow) (pre : List JsVal) (bad : JsVal) (post : List JsVal)
    (hb : ev.body = some b) (hbne : b ≠ "")
    (hp : env.parseJson b = some payload)
    (hitems : getField payload "items" = .ok (some (vArr itemsArr)))
    (hsplit : itemsArr.toList = pre ++ bad :: post)
    (hpool : env.getPool = .ok ())
    (hcat : ∀ ids, env.selectPrices ids = .ok (sqlSelectPrices table ids))
    (hnn : ∀ it ∈ itemsArr.toList, it ≠ vNull)
    (hpre : ∀ it ∈ pre, priceOf table (objGet it "productId") ≠ none)
    (hbad : priceOf table (objGet bad "productId") = none) :
    (createOrder env ev).1 = response 400 (pnfBody (objGet bad "productId")) ∧
    (createOrder env ev).2.insertCalls = [] := by
  have hne : itemsArr.toList ≠ [] := by
    rw [hsplit]; exact List.append_ne_nil_of_right_ne_nil _ (List.cons_ne_nil _ _)
  have hmi := mapIds_ok itemsArr.toList hnn
  have hagree : ∀ it ∈ itemsArr.toList,
      mapGet (pmOf (sqlSelectPrices table
          (itemsArr.toList.map (fun x => objGet x "productId"))))
        (objGet it "productId") = priceOf table (objGet it "productId") := by
    intro it hit
    rcases hpid : objGet it "productId" with _ | k
    · rfl
    · have hkmem : some k ∈ itemsArr.toList.map (fun x => objGet x "productId") :=
        List.mem_map.mpr ⟨it, hit, by rw [hpid]⟩
      exact lookupLast_filter table _ k hkmem
  have hmempre : ∀ it ∈ pre, it ∈ itemsArr.toList := by
    intro it hit; rw [hsplit]; exact List.mem_append_left _ hit
  have hmembad : bad ∈ itemsArr.toList := by
    rw [hsplit]; exact List.mem_append_right _ (List.mem_cons_self _ _)
  obtain ⟨acc2, hacc⟩ := computeTotal_reaches
      (pmOf (sqlSelectPrices table
        (itemsArr.toList.map (fun x => objGet x "productId")))) pre
      (fun it hit => ⟨hnn it (hmempre it hit), by
        rw [hagree it (hmempre it hit)]; exact hpre it hit⟩)
      (bad :: post) (some 0)
  have hct : computeTotal
      (pmOf (sqlSelectPrices table
        (itemsArr.toList.map (fun x => objGet x "productId"))))
      itemsArr.toList (some 0) = .notFound (objGet bad "productId") := by
    rw [hsplit] at hacc ⊢
    rw [hacc]
    have hmgbad : mapGet (pmOf (sqlSelectPrices table
        (itemsArr.toList.map (fun x => objGet x "productId"))))
        (objGet bad "productId") = none := by
      rw [hagree bad hmembad]; exact hbad
    rw [hsplit] at hmgbad
    simp only [computeTotal, if_neg (hnn bad hmembad), hmgbad]
  have hempty : itemsArr.toList.isEmpty = false := by
    simp [List.isEmpty_iff, hne]
  unfold createOrder
  rw [hb]
  simp only [bodyTruthy, if_neg hbne, Option.getD_some, hp, hitems, hempty,
    Bool.false_eq_true, Bool.true_eq_false, if_false, hpool, hmi, hcat, hct]
  exact ⟨trivial, trivial⟩

/-- C3 counterexample: cart [itemX, null] where itemX has the unknown
productId "X": the claim predicts 400 PRODUCT_NOT_FOUND for "X", but the
ids map throws on the null item after it, so the handler returns 500
DB_ERROR; the later item changed the result. -/
theorem createOrder_first_missing_counterexample :
    envW.parseJson "miss" = some (payloadOf [itemX, vNull]) ∧
    priceOf tblW (objGet itemX "productId") = none ∧
    (createOrder envW { body := some "miss" }).1 = response 500 (errBody "DB_ERROR") ∧
    (createOrder envW { body := some "miss" }).1 ≠
      response 400 (pnfBody (some (vStr "X"))) := by
  exact ⟨by decide, rfl, by decide, by decide⟩

/-- C3 witness: cart [itemX, itemA] over the catalog with no "X": the
first missing productId is reported and nothing is written. -/
theorem createOrder_first_missing_witness :
    (createOrder envW { body := some "missfirst" }).1 =
      response 400 (pnfBody (some (vStr "X"))) ∧
    (createOrder envW { body := some "missfirst" }).2.insertCalls = [] := by
  have h := createOrder_first_missing envW { body := some "missfirst" }
      "missfirst" (payloadOf [itemX, itemA]) (JsArr.ofList [itemX, itemA]) tblW
      [] itemX [itemA] rfl (by decide) rfl rfl rfl rfl (fun ids => rfl)
      (by decide) (fun it hit => absurd hit (List.not_mem_nil it)) rfl
  exact h


/-- C4: the resolved quantity is 1 when the quantity field is absent or
falsy, and otherwise is the Number coercion of the field with no
positivity or integrality check; a one-item cart over price 10 totals 10,
and a quantity of -3 is accepted, yielding total -30 with status 201. -/
theorem quantity_resolution (it : JsVal) (v : JsVal) :
    (objGet it "quantity" = none → resolvedQty it = some 1) ∧
    (objGet it "quantity" = some v → truthy v = false → resolvedQty it = some 1) ∧
    (objGet it "quantity" = some v → truthy v = true → resolvedQty it = toNumber v) ∧
    (createOrder envTen { body := some "one" }).1 =
      response 201 (okBody (some 10)) ∧
    (createOrder envTen { body := some "neg" }).1 =
      response 201 (okBody (some (-30))) := by
  refine ⟨fun h => ?_, fun h hf => ?_, fun h ht => ?_, ?_, ?_⟩
  · simp [resolvedQty, h, truthyOpt]
  · simp [resolvedQty, h, truthyOpt, hf]
  · simp [resolvedQty, h, truthyOpt, ht]
  · have h := createOrder_success_run envTen { body := some "one" } "one"
        (payloadOf [itemAonly]) (JsArr.ofList [itemAonly]) tblTen rfl
        (by decide) rfl rfl (by decide) rfl (fun ids => rfl)
        (fun x hx => by
          simp only [JsArr.ofList, JsArr.toList, List.mem_cons,
            List.not_mem_nil, or_false] at hx
          subst hx
          exact ⟨by decide, ⟨10, rfl⟩, by decide⟩)
        (fun t => ⟨7, rfl⟩)
    have e : cartSum tblTen (JsArr.ofList [itemAonly]).toList = 10 := by
      show ((10:Rat) * 1 + 0 : Rat) = 10
      norm_num
    rw [e] at h
    exact h.1
  · have h := createOrder_success_run envTen { body := some "neg" } "neg"
        (payloadOf [itemNegQty]) (JsArr.ofList [itemNegQty]) tblTen rfl
        (by decide) rfl rfl (by decide) rfl (fun ids => rfl)
        (fun x hx => by
          simp only [JsArr.ofList, JsArr.toList, List.mem_cons,
            List.not_mem_nil, or_false] at hx
          subst hx
          exact ⟨by decide, ⟨10, rfl⟩, by decide⟩)
        (fun t => ⟨7, rfl⟩)
    have e : cartSum tblTen (JsArr.ofList [itemNegQty]).toList = -30 := by
      show ((10:Rat) * (-3) + 0 : Rat) = -30
      norm_num
    rw [e] at h
    exact h.1

/-- C4 witness: missing, zero and null quantities resolve to 1; the
truthy quantity 2 resolves to 2. -/
theorem quantity_resolution_witness :
    resolvedQty itemAonly = some 1 ∧ resolvedQty itemZeroQty = some 1 ∧
    resolvedQty itemNullQty = some 1 ∧ resolvedQty itemA = some 2 := by
  refine ⟨(quantity_resolution itemAonly vNull).1 rfl,
    (quantity_resolution itemZeroQty (vNum 0)).2.1 rfl (by decide),
    (quantity_resolution itemNullQty vNull).2.1 rfl (by decide),
    ?_⟩
  have h := (quantity_resolution itemA (vNum 2)).2.2.1 rfl (by decide)
  rw [h]
  rfl


/-- C6 (amended): when validation passes and no item is JSON null, the
single catalog lookup is sent one productId per cart item in input order,
duplicates included (so its set of distinct values is the distinct set of
productIds across the cart, but the transmitted list itself is not
deduplicated). -/
theorem createOrder_ids_sent (env : Env) (ev : Event) (b : String)
    (payload : JsVal) (itemsArr : JsArr)
    (hb : ev.body = some b) (hbne : b ≠ "")
    (hp : env.parseJson b = some payload)
    (hitems : getField payload "items" = .ok (some (vArr itemsArr)))
    (hne : itemsArr.toList ≠ [])
    (hpool : env.getPool = .ok ())
    (hnn : ∀ it ∈ itemsArr.toList, it ≠ vNull) :
    (createOrder env ev).2.catalogCalls =
      [itemsArr.toList.map (fun it => objGet it "productId")] := by
  have hmi := mapIds_ok itemsArr.toList hnn
  have hempty : itemsArr.toList.isEmpty = false := by
    simp [List.isEmpty_iff, hne]
  unfold createOrder
  rw [hb]
  simp only [bodyTruthy, if_neg hbne, Option.getD_some, hp, hitems, hempty,
    Bool.false_eq_true, Bool.true_eq_false, if_false, hpool, hmi]
  split
  · rfl
  · split
    · rfl
    · rfl
    · split <;> rfl

/-- C6 counterexample: a cart naming productId "A" twice sends the list
with "A" twice to the catalog lookup; the transmitted id list is not
deduplicated, contradicting the claim that the distinct set is sent. -/
theorem createOrder_ids_sent_counterexample :
    (createOrder envW { body := some "dup" }).2.catalogCalls =
      [[some (vStr "A"), some (vStr "A")]] ∧
    ¬ ([some (vStr "A"), some (vStr "A")] : List (Option JsVal)).Nodup := by
  exact ⟨by decide, by decide⟩

/-- C6 witness: the two-item cart sends exactly its two productIds in
input order. -/
theorem createOrder_ids_sent_witness :
    (createOrder envW { body := some "good" }).2.catalogCalls =
      [[some (vStr "A"), some (vStr "B")]] := by
  have h := createOrder_ids_sent envW { body := some "good" } "good"
      (payloadOf [itemA, itemB]) (JsArr.ofList [itemA, itemB]) rfl (by decide)
      rfl rfl (by decide) rfl (by decide)
  exact h

/-- C7: every 500 outcome of createOrder carries exactly the opaque
DB_ERROR body; getProducts returns exactly 500 DB_ERROR when pool
acquisition or the listing query fails; createOrder returns exactly 500
DB_ERROR when pool acquisition fails after validation, when the catalog
price lookup fails (in which case no order-store write is issued), or
when the order-store write fails; no detail of the underlying failure
appears in any of these responses. -/
theorem dependency_error_generic (env : Env) (ev : Event) :
    ((createOrder env ev).1.statusCode = 500 →
      (createOrder env ev).1 = response 500 (errBody "DB_ERROR")) ∧
    (env.getPool = .error () →
      getProducts env = response 500 (errBody "DB_ERROR")) ∧
    (env.selectProducts = .error () →
      getProducts env = response 500 (errBody "DB_ERROR")) ∧
    (∀ b payload itemsArr, ev.body = some b → b ≠ "" →
      env.parseJson b = some payload →
      getField payload "items" = .ok (some (vArr itemsArr)) →
      itemsArr.toList ≠ [] → env.getPool = .error () →
      (createOrder env ev).1 = response 500 (errBody "DB_ERROR")) ∧
    (∀ b payload itemsArr ids, ev.body = some b → b ≠ "" →
      env.parseJson b = some payload →
      getField payload "items" = .ok (some (vArr itemsArr)) →
      itemsArr.toList ≠ [] → env.getPool = .ok () →
      mapIds itemsArr.toList = .ok ids →
      env.selectPrices ids = .error () →
      createOrder env ev =
        (response 500 (errBody "DB_ERROR"),
         { catalogCalls := [ids], insertCalls := [] })) ∧
    (∀ b payload itemsArr ids rows total, ev.body = some b → b ≠ "" →
      env.parseJson b = some payload →
      getField payload "items" = .ok (some (vArr itemsArr)) →
      itemsArr.toList ≠ [] → env.getPool = .ok () →
      mapIds itemsArr.toList = .ok ids →
      env.selectPrices ids = .ok rows →
      computeTotal (pmOf rows) itemsArr.toList (some 0) = .done total →
      env.insertOrder total = .error () →
      (createOrder env ev).1 = response 500 (errBody "DB_ERROR")) := by
  refine ⟨?_, fun h => ?_, fun h => ?_,
    fun b payload itemsArr hb hbne hp hitems hne hpool => ?_,
    fun b payload itemsArr ids hb hbne hp hitems hne hpool hmi hsel => ?_,
    fun b payload itemsArr ids rows total hb hbne hp hitems hne hpool hmi hsel
      hct hins => ?_⟩
  · rcases createOrder_cases env ev with h | h | h | h |
        ⟨ids, h⟩ | ⟨ids, pid, h⟩ | ⟨ids, t, h⟩ | ⟨ids, t, h⟩ <;> rw [h] <;>
      intro hpre <;>
      first
        | rfl
        | (exfalso; revert hpre; simp [response])
  · unfold getProducts
    rw [h]
  · unfold getProducts
    cases hpool : env.getPool with
    | error e => rfl
    | ok u => rw [h]
  · have hempty : itemsArr.toList.isEmpty = false := by
      simp [List.isEmpty_iff, hne]
    unfold createOrder
    rw [hb]
    simp only [bodyTruthy, if_neg hbne, Option.getD_some, hp, hitems, hempty,
      Bool.false_eq_true, Bool.true_eq_false, if_false, hpool]
  · have hempty : itemsArr.toList.isEmpty = false := by
      simp [List.isEmpty_iff, hne]
    unfold createOrder
    rw [hb]
    simp only [bodyTruthy, if_neg hbne, Option.getD_some, hp, hitems, hempty,
      Bool.false_eq_true, Bool.true_eq_false, if_false, hpool, hmi, hsel]
  · have hempty : itemsArr.toList.isEmpty = false := by
      simp [List.isEmpty_iff, hne]
    unfold createOrder
    rw [hb]
    simp only [bodyTruthy, if_neg hbne, Option.getD_some, hp, hitems, hempty,
      Bool.false_eq_true, Bool.true_eq_false, if_false, hpool, hmi, hsel, hct,
      hins]

/-- C7 witness: concrete failing environments produce exactly the opaque
500 DB_ERROR envelope: pool failure in getProducts and createOrder,
listing failure in getProducts, and a failing catalog price lookup in
createOrder, the last issuing no order-store write. -/
theorem dependency_error_generic_witness :
    getProducts envPoolFail = response 500 (errBody "DB_ERROR") ∧
    getProducts envListFail = response 500 (errBody "DB_ERROR") ∧
    (createOrder envPoolFail { body := some "good" }).1 =
      response 500 (errBody "DB_ERROR") ∧
    createOrder envCatFail { body := some "good" } =
      (response 500 (errBody "DB_ERROR"),
       { catalogCalls := [[some (vStr "A"), some (vStr "B")]],
         insertCalls := [] }) := by
  refine ⟨(dependency_error_generic envPoolFail { body := none }).2.1 rfl,
    (dependency_error_generic envListFail { body := none }).2.2.1 rfl,
    (dependency_error_generic envPoolFail { body := some "good" }).2.2.2.1
      "good" (payloadOf [itemA, itemB]) (JsArr.ofList [itemA, itemB]) rfl
      (by decide) rfl rfl (by decide) rfl,
    (dependency_error_generic envCatFail { body := some "good" }).2.2.2.2.1
      "good" (payloadOf [itemA, itemB]) (JsArr.ofList [itemA, itemB])
      [some (vStr "A"), some (vStr "B")] rfl (by decide) rfl rfl (by decide)
      rfl rfl rfl⟩

/-- C9: the two createOrder copies (src/index.js and the duplicated
build copy) compute the same function of the event and the collaborator
behavior, returning identical envelopes and issuing identical collaborator
calls. -/
theorem createOrder_copies_agree :
    ∀ (env : Env) (ev : Event), createOrder env ev = createOrderBuild env ev :=
  fun _ _ => rfl

/-- C10: for every event and collaborator outcome, createOrder returns
an envelope with status in 201, 400, 500 and an object body, and
getProducts returns status 200 or 500 with an object or array body; every
internal error is caught and mapped to one of these envelopes. -/
theorem handlers_always_respond (env : Env) (ev : Event) :
    ((createOrder env ev).1.statusCode = 201 ∨
     (createOrder env ev).1.statusCode = 400 ∨
     (createOrder env ev).1.statusCode = 500) ∧
    (∃ fs, (createOrder env ev).1.body = vObj fs) ∧
    ((getProducts env).statusCode = 200 ∨ (getProducts env).statusCode = 500) ∧
    ((∃ fs, (getProducts env).body = vObj fs) ∨
     (∃ arr, (getProducts env).body = vArr arr)) := by
  have hg : (getProducts env).statusCode = 200 ∨
      (getProducts env).statusCode = 500 := by
    unfold getProducts
    cases env.getPool with
    | error e => exact Or.inr rfl
    | ok u =>
      cases env.selectProducts with
      | error e => exact Or.inr rfl
      | ok rows => exact Or.inl rfl
  have hgb : (∃ fs, (getProducts env).body = vObj fs) ∨
      (∃ arr, (getProducts env).body = vArr arr) := by
    unfold getProducts
    cases env.getPool with
    | error e => exact Or.inl ⟨_, rfl⟩
    | ok u =>
      cases env.selectProducts with
      | error e => exact Or.inl ⟨_, rfl⟩
      | ok rows => exact Or.inr ⟨_, rfl⟩
  refine ⟨?_, ?_, hg, hgb⟩ <;>
    rcases createOrder_cases env ev with h | h | h | h |
        ⟨ids, h⟩ | ⟨ids, pid, h⟩ | ⟨ids, t, h⟩ | ⟨ids, t, h⟩ <;> rw [h]
  · exact Or.inr (Or.inl rfl)
  · exact Or.inr (Or.inl rfl)
  · exact Or.inr (Or.inr rfl)
  · exact Or.inr (Or.inl rfl)
  · exact Or.inr (Or.inr rfl)
  · exact Or.inr (Or.inl rfl)
  · exact Or.inr (Or.inr rfl)
  · exact Or.inl rfl
  · exact ⟨_, rfl⟩
  · exact ⟨_, rfl⟩
  · exact ⟨_, rfl⟩
  · exact ⟨_, rfl⟩
  · exact ⟨_, rfl⟩
  · cases pid with
    | none => exact ⟨_, rfl⟩
    | some p => exact ⟨_, rfl⟩
  · exact ⟨_, rfl⟩
  · exact ⟨_, rfl⟩


/-- C8 (amended): configuration resolution from a secret payload object
succeeds exactly when the payload supplies truthy host, username and
password fields; the key "user" is not consulted, only "username".  On
success the database name defaults to the fixed store name "storedb" when
neither dbname nor database is given, and the port defaults to 3306 when
absent.  A missing required field makes getDbConfig throw. -/
theorem getDbConfig_resolution (fs : JsFields) :
    ((∃ cfg, getDbConfig (vObj fs) = .ok cfg) ↔
      (truthyOpt (fs.find "host") = true ∧
       truthyOpt (fs.find "username") = true ∧
       truthyOpt (fs.find "password") = true)) ∧
    (∀ cfg, getDbConfig (vObj fs) = .ok cfg →
      (fs.find "dbname" = none → fs.find "database" = none →
        cfg.database = vStr "storedb") ∧
      (fs.find "port" = none → cfg.port = some 3306)) := by
  have hgf : ∀ k, getField (vObj fs) k = .ok (JsFields.find fs k) := fun k => by
    simp [getField, objGet]
  unfold getDbConfig
  simp only [hgf]
  by_cases h1 : truthyOpt (fs.find "host") = true <;>
    by_cases h2 : truthyOpt (fs.find "username") = true <;>
      by_cases h3 : truthyOpt (fs.find "password") = true
  · have hcond : ¬(truthyOpt (fs.find "host") = false ∨
        truthyOpt (fs.find "username") = false ∨
        truthyOpt (fs.find "password") = false) := by
      simp [h1, h2, h3]
    rw [if_neg hcond]
    constructor
    · simp [h1, h2, h3]
    · intro cfg hcfg
      have hrec := (Except.ok.inj hcfg).symm
      subst hrec
      constructor
      · intro hd1 hd2
        simp [hd1, hd2, truthyOpt]
      · intro hp
        simp [hp, truthyOpt]
  all_goals
    constructor
  all_goals
    first
      | (intro cfg hcfg
         exfalso
         revert hcfg
         simp [h1, h2, h3])
      | simp [h1, h2, h3]


/-- C8 counterexample: a payload supplying host, password, and the user
under the key "user" (not "username") is rejected by getDbConfig, even
though the claim says a user is accepted under either key. -/
theorem getDbConfig_user_key_counterexample :
    truthyOpt (fsUserKey.find "host") = true ∧
    truthyOpt (fsUserKey.find "user") = true ∧
    truthyOpt (fsUserKey.find "password") = true ∧
    getDbConfig (vObj fsUserKey) = .error () := ⟨rfl, rfl, rfl, rfl⟩

/-- C8 witness: the minimal host-username-password payload resolves, and
its configuration carries the default database "storedb" and port 3306. -/
theorem getDbConfig_resolution_witness :
    (∃ cfg, getDbConfig (vObj fsW) = .ok cfg) ∧
    (∀ cfg, getDbConfig (vObj fsW) = .ok cfg →
      cfg.database = vStr "storedb" ∧ cfg.port = some 3306) := by
  refine ⟨(getDbConfig_resolution fsW).1.mpr ⟨rfl, rfl, rfl⟩,
    fun cfg hcfg => ?_⟩
  have h := (getDbConfig_resolution fsW).2 cfg hcfg
  exact ⟨h.1 rfl rfl, h.2 rfl⟩

end Reto
